import Mathlib

/-!
Verification of the KubeVirt pod-to-guest network bridging subsystem
(`pkg/virt-launcher/virtwrap/network`) and of the generated
`VirtualMachineRestore` typed client
(`staging/src/kubevirt.io/client-go/.../snapshot/v1alpha1/virtualmachinerestore.go`).

The network orchestration code itself (`podinterface.go`) is not part of the
available sources (only its test suite is), so the network definitions below
are modelled from the specification (§3, §4.1–§4.4, §7, §8 of the design
document), with the constants and observable call sequence fixed by the test
suite `podinterface_test.go`.  The `VirtualMachineRestore` client definitions
are a direct shallow embedding of the Go source file.
-/

set_option autoImplicit false

/-- Decidable equality for `Except`, used to evaluate the embedded
operations on concrete inputs. -/
instance {ε α : Type} [DecidableEq ε] [DecidableEq α] :
    DecidableEq (Except ε α) := fun a b =>
  match a, b with
  | .error x, .error y =>
    if h : x = y then .isTrue (by rw [h])
    else .isFalse (fun hc => by injection hc; contradiction)
  | .ok x, .ok y =>
    if h : x = y then .isTrue (by rw [h])
    else .isFalse (fun hc => by injection hc; contradiction)
  | .error _, .ok _ => .isFalse (fun hc => Except.noConfusion hc)
  | .ok _, .error _ => .isFalse (fun hc => Except.noConfusion hc)

namespace KubeVirt

namespace Network

/-- An IPv4 address, as its four octets (models Go's `net.IP`). -/
abbrev IP := List Nat

/-- An address with prefix length (models `net.IPNet` inside `netlink.Addr`). -/
structure Addr where
  ip : IP
  maskLen : Nat
deriving DecidableEq, Repr

/-- A hardware (MAC) address as a list of bytes (models `net.HardwareAddr`). -/
abbrev MAC := List Nat

/-- One routing-table entry as observed on the pod interface (models
`netlink.Route`): optional destination, optional gateway, optional source. -/
structure Route where
  dst : Option Addr := none
  gw : Option IP := none
  src : Option IP := none
deriving DecidableEq, Repr

/-- Modelled from the spec: the VIF record capturing a migrated interface's
observed identity — name, original address, original MAC, gateway (§3). -/
structure VIF where
  name : String
  ip : Addr
  mac : MAC
  gateway : Option IP
deriving DecidableEq, Repr

/-- A host network link handle (models `netlink.Link`; the test uses a
`netlink.Dummy` with index 1 for the pod link and a `netlink.Bridge` named
after the default bridge). -/
structure Link where
  name : String
  index : Nat
deriving DecidableEq, Repr

/-- Modelled from the spec: the well-known pod-side interface name (§8 uses
`eth0`). -/
def podInterface : String := "eth0"

/-- The well-known default bridge name (`api.DefaultBridgeName`; the test's
expected XML fixes it to `br1`). -/
def DefaultBridgeName : String := "br1"

/-- Modelled from the spec: the fixed, well-known link-local address assigned
to the bridge (§4.3 step 7).  The exact literal is not observable from the
available material; only that it is a fixed constant matters here. -/
def bridgeFakeIP : String := "169.254.75.10/32"

/-- The IPv4 address family selector (`netlink.FAMILY_V4`). -/
def FAMILY_V4 : Nat := 2

/-- Lowercase hexadecimal digit for a value below 16. -/
def hexChar (n : Nat) : Char :=
  if n < 10 then Char.ofNat (48 + n) else Char.ofNat (87 + n)

/-- Two lowercase hex digits of a byte. -/
def byteToHex (b : Nat) : String :=
  String.mk [hexChar (b / 16), hexChar (b % 16)]

/-- Colon-separated lowercase rendering of a MAC address, as produced by Go's
`net.HardwareAddr.String`. -/
def macToString : MAC → String
  | [] => ""
  | [b] => byteToHex b
  | b :: rest => byteToHex b ++ ":" ++ macToString rest

/-- One entry of the guest domain's declared network devices
(`api.Interface`): its type, the source bridge name, the optional device
model and the optional guest-visible MAC address string. -/
structure Interface where
  ifaceType : String
  sourceBridge : String
  model : Option String
  macAddr : Option String
deriving DecidableEq, Repr

/-- The guest domain configuration surface this subsystem writes to
(`domain.Spec.Devices.Interfaces`). -/
structure Domain where
  interfaces : List Interface
deriving DecidableEq, Repr

/-- XML rendering of one domain network device, matching the byte layout the
test suite expects from `xml.Marshal` on `api.Interface`. -/
def serializeInterface (i : Interface) : String :=
  "<Interface type=\"" ++ i.ifaceType ++ "\"><source bridge=\"" ++
    i.sourceBridge ++ "\"></source>" ++
  (match i.model with
   | some m => "<model type=\"" ++ m ++ "\"></model>"
   | none => "") ++
  (match i.macAddr with
   | some m => "<mac address=\"" ++ m ++ "\"></mac>"
   | none => "") ++
  "</Interface>"

/-- XML rendering of the whole device list. -/
def serializeInterfaces (l : List Interface) : String :=
  String.join (l.map serializeInterface)

/-- Modelled from the spec: the route filter (§4.2).  Drops degenerate routes
(no destination, no gateway, no source) and the route whose source address
equals the VIF's original address; keeps everything else in order. -/
def filterPodNetworkRoutes (routes : List Route) (nic : VIF) : List Route :=
  match routes with
  | [] => []
  | r :: rest =>
    if r.dst = none ∧ r.gw = none ∧ r.src = none then
      filterPodNetworkRoutes rest nic
    else
      match r.src with
      | some s =>
        if s = nic.ip.ip then filterPodNetworkRoutes rest nic
        else r :: filterPodNetworkRoutes rest nic
      | none => r :: filterPodNetworkRoutes rest nic

/-- The predicate a kept route satisfies: not degenerate, and its source (if
any) differs from the VIF's original address. -/
def keepRoute (nic : VIF) (r : Route) : Bool :=
  !(r.dst = none ∧ r.gw = none ∧ r.src = none : Bool) &&
    !(r.src = some nic.ip.ip : Bool)

/-- Modelled from the spec: whether a domain device is the pod-bridge device —
type `bridge` and source bridge equal to the well-known name (§4.4). -/
def isPodInterface (d : Interface) : Bool :=
  d.ifaceType = "bridge" && d.sourceBridge = DefaultBridgeName

/-- Modelled from the spec: the domain interface locator (§4.4).  Scans the
device list for the pod-bridge device; zero matches is an ordinary error,
otherwise the index of the (first) matching device is returned. -/
def findPodInterface (ifs : List Interface) : Except String Nat :=
  match ifs with
  | [] => .error "failed to find pod interface in domain device list"
  | d :: rest =>
    if isPodInterface d then .ok 0
    else (findPodInterface rest).map (· + 1)

/-- The subset of a VM specification the setup pass receives
(`v1.VirtualMachineInstance`); the orchestrator does not inspect it beyond
receiving it. -/
structure VirtualMachineInstance where
  name : String
  metaNamespace : String
deriving DecidableEq, Repr

/-- Modelled from the spec: the Network Operations Port (§4.1), the injected
capability over the operating system's network-configuration primitives.
`linkByName` yields `none` for a missing link (the `NotFound` result of
`findLink`); every other fallible operation returns an `Except`. -/
structure Port where
  linkByName : String → Option Link
  addrList : Link → Nat → Except String (List Addr)
  routeList : Link → Nat → Except String (List Route)
  getMacDetails : String → Except String MAC
  addrDel : Link → Addr → Except String Unit
  linkSetDown : Link → Except String Unit
  setRandomMac : String → Except String MAC
  linkSetUp : Link → Except String Unit
  linkAdd : Link → Except String Unit
  parseAddr : String → Except String Addr
  addrAdd : Link → Addr → Except String Unit
  startDHCP : VIF → Addr → Unit

/-- One observable Network Operations Port invocation, with its arguments;
the setup pass returns the ordered trace of these. -/
inductive PortCall where
  | linkByName (name : String)
  | addrList (link : Link) (family : Nat)
  | routeList (link : Link) (family : Nat)
  | getMacDetails (name : String)
  | addrDel (link : Link) (addr : Addr)
  | linkSetDown (link : Link)
  | setRandomMac (name : String)
  | linkSetUp (link : Link)
  | linkAdd (link : Link)
  | parseAddr (s : String)
  | addrAdd (link : Link) (addr : Addr)
  | startDHCP (vif : VIF) (served : Addr)
deriving DecidableEq, Repr

/-- Modelled from the spec: the persisted Interface Cache (§3), keyed by
interface name, holding the VIF plus the filtered route set. -/
abbrev Cache := List (String × (VIF × List Route))

/-- Cache lookup by interface name (first entry wins, as for one file per
name). -/
def lookupCache (c : Cache) (k : String) : Option (VIF × List Route) :=
  match c with
  | [] => none
  | (k', v) :: rest => if k = k' then some v else lookupCache rest k

/-- Apply `f` to the element at index `i`, leaving the rest of the list
unchanged (the in-place update `ifconf[i] = ...` of the Go code). -/
def modifyIdx {α : Type} : List α → Nat → (α → α) → List α
  | [], _, _ => []
  | x :: xs, 0, f => f x :: xs
  | x :: xs, n + 1, f => x :: modifyIdx xs n f

/-- Overwrite a domain device's guest-visible MAC with the VIF's original
MAC, rendered in Go's lowercase colon form. -/
def setPodMac (m : MAC) (d : Interface) : Interface :=
  { d with macAddr := some (macToString m) }

/-- Modelled from the spec: step 10 of §4.3 — locate the pod-bridge device in
the domain's device list and overwrite it so the guest-visible MAC is the
VIF's original MAC; a missing device is an ordinary error (§7). -/
def decorateConfig (vif : VIF) (d : Domain) : Except String Domain :=
  match findPodInterface d.interfaces with
  | .error e => .error e
  | .ok i => .ok ⟨modifyIdx d.interfaces i (setPodMac vif.mac)⟩

/-- The link-creation spec for the well-known bridge (the `netlink.Bridge`
value passed to `LinkAdd`). -/
def bridgeSpec : Link := { name := DefaultBridgeName, index := 0 }

/-- The outcome of a setup pass: success with the updated domain and cache, a
recoverable error (§7 not-found conditions), or an unrecoverable abort (§7
Port mutation errors — the Go code panics via a `Critical` log). -/
inductive SetupResult where
  | ok (domain : Domain) (cache : Cache)
  | softErr (msg : String)
  | panic (msg : String)
deriving DecidableEq, Repr

/-- Modelled from the spec: the Pod Network Bridge Orchestrator (§4.3).
On a cache hit only step 10 runs, with no Port calls; on a cache miss the
Port is driven through the migration sequence in the fixed order, any Port
call failure in steps 1–9 aborts unrecoverably, and the VIF plus filtered
routes are recorded in the cache before the domain description is rewritten.
The global `Handler` and the cache file of the Go code are passed explicitly;
the returned list is the ordered trace of Port calls issued. -/
def SetupPodNetwork (_ : VirtualMachineInstance) (port : Port) (cache : Cache)
    (domain : Domain) : SetupResult × List PortCall :=
  match lookupCache cache podInterface with
  | some (vif, _) =>
    (match decorateConfig vif domain with
     | .ok d' => (.ok d' cache, [])
     | .error e => (.softErr e, []))
  | none =>
    match port.linkByName podInterface with
    | none => (.softErr "pod link not found", [.linkByName podInterface])
    | some link =>
      match port.addrList link FAMILY_V4 with
      | .error e => (.panic e,
          [.linkByName podInterface, .addrList link FAMILY_V4])
      | .ok addrs =>
        match addrs with
        | [] => (.panic "no address found on pod interface",
            [.linkByName podInterface, .addrList link FAMILY_V4])
        | addr :: _ =>
          match port.routeList link FAMILY_V4 with
          | .error e => (.panic e,
              [.linkByName podInterface, .addrList link FAMILY_V4,
               .routeList link FAMILY_V4])
          | .ok routes =>
            match routes with
            | [] => (.panic "no gateway found in routes",
                [.linkByName podInterface, .addrList link FAMILY_V4,
                 .routeList link FAMILY_V4])
            | route :: _ =>
              match port.getMacDetails podInterface with
              | .error e => (.panic e,
                  [.linkByName podInterface, .addrList link FAMILY_V4,
                   .routeList link FAMILY_V4, .getMacDetails podInterface])
              | .ok mac =>
                let vif : VIF :=
                  { name := podInterface, ip := addr, mac := mac,
                    gateway := route.gw }
                match port.addrDel link addr with
                | .error e => (.panic e,
                    [.linkByName podInterface, .addrList link FAMILY_V4,
                     .routeList link FAMILY_V4, .getMacDetails podInterface,
                     .addrDel link addr])
                | .ok _ =>
                  match port.linkSetDown link with
                  | .error e => (.panic e,
                      [.linkByName podInterface, .addrList link FAMILY_V4,
                       .routeList link FAMILY_V4, .getMacDetails podInterface,
                       .addrDel link addr, .linkSetDown link])
                  | .ok _ =>
                    match port.setRandomMac podInterface with
                    | .error e => (.panic e,
                        [.linkByName podInterface, .addrList link FAMILY_V4,
                         .routeList link FAMILY_V4,
                         .getMacDetails podInterface, .addrDel link addr,
                         .linkSetDown link, .setRandomMac podInterface])
                    | .ok _ =>
                      match port.linkSetUp link with
                      | .error e => (.panic e,
                          [.linkByName podInterface, .addrList link FAMILY_V4,
                           .routeList link FAMILY_V4,
                           .getMacDetails podInterface, .addrDel link addr,
                           .linkSetDown link, .setRandomMac podInterface,
                           .linkSetUp link])
                      | .ok _ =>
                        match port.linkAdd bridgeSpec with
                        | .error e => (.panic e,
                            [.linkByName podInterface,
                             .addrList link FAMILY_V4,
                             .routeList link FAMILY_V4,
                             .getMacDetails podInterface, .addrDel link addr,
                             .linkSetDown link, .setRandomMac podInterface,
                             .linkSetUp link, .linkAdd bridgeSpec])
                        | .ok _ =>
                          match port.linkByName DefaultBridgeName with
                          | none => (.panic "bridge link not found",
                              [.linkByName podInterface,
                               .addrList link FAMILY_V4,
                               .routeList link FAMILY_V4,
                               .getMacDetails podInterface,
                               .addrDel link addr, .linkSetDown link,
                               .setRandomMac podInterface, .linkSetUp link,
                               .linkAdd bridgeSpec,
                               .linkByName DefaultBridgeName])
                          | some br =>
                            match port.linkSetUp br with
                            | .error e => (.panic e,
                                [.linkByName podInterface,
                                 .addrList link FAMILY_V4,
                                 .routeList link FAMILY_V4,
                                 .getMacDetails podInterface,
                                 .addrDel link addr, .linkSetDown link,
                                 .setRandomMac podInterface, .linkSetUp link,
                                 .linkAdd bridgeSpec,
                                 .linkByName DefaultBridgeName,
                                 .linkSetUp br])
                            | .ok _ =>
                              match port.parseAddr bridgeFakeIP with
                              | .error e => (.panic e,
                                  [.linkByName podInterface,
                                   .addrList link FAMILY_V4,
                                   .routeList link FAMILY_V4,
                                   .getMacDetails podInterface,
                                   .addrDel link addr, .linkSetDown link,
                                   .setRandomMac podInterface,
                                   .linkSetUp link, .linkAdd bridgeSpec,
                                   .linkByName DefaultBridgeName,
                                   .linkSetUp br, .parseAddr bridgeFakeIP])
                              | .ok ba =>
                                match port.addrAdd br ba with
                                | .error e => (.panic e,
                                    [.linkByName podInterface,
                                     .addrList link FAMILY_V4,
                                     .routeList link FAMILY_V4,
                                     .getMacDetails podInterface,
                                     .addrDel link addr, .linkSetDown link,
                                     .setRandomMac podInterface,
                                     .linkSetUp link, .linkAdd bridgeSpec,
                                     .linkByName DefaultBridgeName,
                                     .linkSetUp br, .parseAddr bridgeFakeIP,
                                     .addrAdd br ba])
                                | .ok _ =>
                                  let _ := port.startDHCP vif ba
                                  let cache' : Cache :=
                                    (podInterface,
                                      (vif, filterPodNetworkRoutes routes vif))
                                      :: cache
                                  let tr :=
                                    [PortCall.linkByName podInterface,
                                     .addrList link FAMILY_V4,
                                     .routeList link FAMILY_V4,
                                     .getMacDetails podInterface,
                                     .addrDel link addr, .linkSetDown link,
                                     .setRandomMac podInterface,
                                     .linkSetUp link, .linkAdd bridgeSpec,
                                     .linkByName DefaultBridgeName,
                                     .linkSetUp br, .parseAddr bridgeFakeIP,
                                     .addrAdd br ba, .startDHCP vif ba]
                                  match decorateConfig vif domain with
                                  | .error e => (.softErr e, tr)
                                  | .ok d' => (.ok d' cache', tr)

/-! Concrete fixtures from the test suite's end-to-end scenario (§8): pod
interface `eth0` with address `10.35.0.6/24`, gateway `10.35.0.1`, MAC
`12:34:56:78:9A:BC`. -/

/-- The pod link the mock returns (`netlink.Dummy` with index 1). -/
def dummyLink : Link := { name := "", index := 1 }

/-- The original pod address `10.35.0.6/24`. -/
def fakeAddr : Addr := { ip := [10, 35, 0, 6], maskLen := 24 }

/-- The original gateway `10.35.0.1`. -/
def gatewayIP : IP := [10, 35, 0, 1]

/-- The original pod MAC `12:34:56:78:9A:BC`. -/
def fakeMac : MAC := [0x12, 0x34, 0x56, 0x78, 0x9A, 0xBC]

/-- The randomized MAC the mock hands back (`AF:B3:1F:78:2A:CA`). -/
def updateFakeMac : MAC := [0xAF, 0xB3, 0x1F, 0x78, 0x2A, 0xCA]

/-- The parsed well-known bridge address. -/
def bridgeAddr : Addr := { ip := [169, 254, 75, 10], maskLen := 32 }

/-- The single default route `via 10.35.0.1` the mock reports. -/
def routeAddr : Route := { gw := some gatewayIP }

/-- The VIF the migration records for the scenario. -/
def testNic : VIF :=
  { name := podInterface, ip := fakeAddr, mac := fakeMac,
    gateway := some gatewayIP }

/-- The mock Network Operations Port of the test suite: every operation
succeeds with the scenario's fixtures. -/
def mockPort : Port where
  linkByName := fun n =>
    if n = podInterface then some dummyLink
    else if n = DefaultBridgeName then some bridgeSpec
    else none
  addrList := fun _ _ => .ok [fakeAddr]
  routeList := fun _ _ => .ok [routeAddr]
  getMacDetails := fun _ => .ok fakeMac
  addrDel := fun _ _ => .ok ()
  linkSetDown := fun _ => .ok ()
  setRandomMac := fun _ => .ok updateFakeMac
  linkSetUp := fun _ => .ok ()
  linkAdd := fun _ => .ok ()
  parseAddr := fun _ => .ok bridgeAddr
  addrAdd := fun _ _ => .ok ()
  startDHCP := fun _ _ => ()

/-- The mock Port whose address removal fails with `device is busy` (the
fatal scenario of §8). -/
def mockPortAddrDelFails : Port :=
  { mockPort with addrDel := fun _ _ => .error "device is busy" }

/-- The test VM (`newVM "testnamespace" "testVmName"`). -/
def testVM : VirtualMachineInstance :=
  { name := "testVmName", metaNamespace := "testnamespace" }

/-- The initial domain of `NewDomainWithPodNetwork`: one virtio-model
bridge-type device on the default bridge, no MAC yet. -/
def testDomain : Domain :=
  ⟨[{ ifaceType := "bridge", sourceBridge := DefaultBridgeName,
      model := some "virtio", macAddr := none }]⟩

/-- The number of pod-bridge devices in a device list. -/
def countPod (l : List Interface) : Nat :=
  l.countP (fun d => isPodInterface d)

/-- Iterate setup passes (possibly with different ports), threading the cache
and domain; `none` as soon as a pass does not succeed. -/
def runPasses : List (VirtualMachineInstance × Port) → Cache → Domain →
    Option (Domain × Cache)
  | [], c, d => some (d, c)
  | (vm, p) :: rest, c, d =>
    match SetupPodNetwork vm p c d with
    | (.ok d' c', _) => runPasses rest c' d'
    | _ => none

/-! Route-filter fixtures of the test suite. -/

/-- The default route `via 10.35.0.1`. -/
def defRoute : Route := { gw := some gatewayIP }

/-- The static route `10.45.0.10/32 via 10.25.0.1`. -/
def staticRoute : Route :=
  { dst := some { ip := [10, 45, 0, 10], maskLen := 32 },
    gw := some [10, 25, 0, 1] }

/-- The host-scoped route to the gateway `10.35.0.1/32`. -/
def gwRoute : Route := { dst := some { ip := [10, 35, 0, 1], maskLen := 32 } }

/-- The kernel-injected interface-local route with source `10.35.0.6`. -/
def nicRoute : Route := { src := some [10, 35, 0, 6] }

/-- A degenerate route with no destination, gateway or source. -/
def emptyRoute : Route := {}

/-- The port with no links at all (pod link absent). -/
def noLinkPort : Port := { mockPort with linkByName := fun _ => none }

/-- The domain after a successful pass: the single device now carries the
original MAC in lowercase. -/
def decoratedTestDomain : Domain :=
  ⟨[{ ifaceType := "bridge", sourceBridge := DefaultBridgeName,
      model := some "virtio", macAddr := some "12:34:56:78:9a:bc" }]⟩

/-- The cache after the first successful pass: one entry for the pod
interface holding the VIF and the filtered route list. -/
def testCacheAfter : Cache := [(podInterface, (testNic, [routeAddr]))]

/-- The complete Port-call trace of a successful cache-miss pass on the mock
Port. -/
def fullMockTrace : List PortCall :=
  [.linkByName podInterface, .addrList dummyLink FAMILY_V4,
   .routeList dummyLink FAMILY_V4, .getMacDetails podInterface,
   .addrDel dummyLink fakeAddr, .linkSetDown dummyLink,
   .setRandomMac podInterface, .linkSetUp dummyLink, .linkAdd bridgeSpec,
   .linkByName DefaultBridgeName, .linkSetUp bridgeSpec,
   .parseAddr bridgeFakeIP, .addrAdd bridgeSpec bridgeAddr,
   .startDHCP testNic bridgeAddr]

/-- The XML bytes the test suite expects for the configured device list. -/
def interfaceXml : String :=
  "<Interface type=\"bridge\"><source bridge=\"br1\"></source><model type=\"virtio\"></model><mac address=\"12:34:56:78:9a:bc\"></mac></Interface>"

/-- The locator test list: the pod-bridge device is last, preceded by a
device of another type and a bridge with another name. -/
def testInterfaces3 : List Interface :=
  [{ ifaceType := "not-bridge", sourceBridge := DefaultBridgeName,
     model := none, macAddr := none },
   { ifaceType := "bridge", sourceBridge := "other_br",
     model := none, macAddr := none },
   { ifaceType := "bridge", sourceBridge := DefaultBridgeName,
     model := none, macAddr := none }]

end Network

namespace ClientGen

/-!
Shallow embedding of the generated typed client
`virtualmachinerestore.go`.  The `rest.Interface` request builder is
embedded as a record of request fields populated by builder functions named
after the Go methods; `Do()`/`Watch()` execution is an abstract responder
carried by the client.  Only the option fields the embedded code reads are
modelled.
-/

/-- `metav1.GetOptions` (only passed through as request parameters). -/
structure GetOptions where
  resourceVersion : String := ""
deriving DecidableEq, Repr

/-- `metav1.ListOptions`: the embedded code reads `TimeoutSeconds` and
writes `Watch`; the selectors are carried opaquely. -/
structure ListOptions where
  labelSelector : String := ""
  fieldSelector : String := ""
  watch : Bool := false
  timeoutSeconds : Option Nat := none
deriving DecidableEq, Repr

/-- `metav1.DeleteOptions` (only passed through as a request body). -/
structure DeleteOptions where
  gracePeriodSeconds : Option Nat := none
deriving DecidableEq, Repr

/-- The `VirtualMachineRestore` custom resource; only the object name is
read by the embedded code (`Update`/`UpdateStatus` address the request by
it). -/
structure VirtualMachineRestore where
  name : String := ""
  resourceVersion : String := ""
deriving DecidableEq, Repr

/-- `VirtualMachineRestoreList`. -/
structure VirtualMachineRestoreList where
  items : List VirtualMachineRestore := []
deriving DecidableEq, Repr

/-- The versioned parameters attached to a request: either get options or
list options (`VersionedParams` with `scheme.ParameterCodec`). -/
inductive ReqParams where
  | getOpts (o : GetOptions)
  | listOpts (o : ListOptions)
deriving DecidableEq, Repr

/-- A request body: a restore object, delete options, or patch bytes. -/
inductive ReqBody where
  | restoreObj (r : VirtualMachineRestore)
  | deleteOpts (o : Option DeleteOptions)
  | patchData (d : List Nat)
deriving DecidableEq, Repr

/-- The REST request a client method builds before executing it: verb,
path namespace, resource, object name, subresources, body, timeout and
parameters. -/
structure RestRequest where
  verb : String
  ns : Option String := none
  resource : Option String := none
  name : Option String := none
  subresources : List String := []
  body : Option ReqBody := none
  timeoutSecs : Nat := 0
  params : Option ReqParams := none
  patchType : Option String := none
deriving DecidableEq, Repr

/-- `Request.Namespace`. -/
def RestRequest.Namespace (r : RestRequest) (n : String) : RestRequest :=
  { r with ns := some n }

/-- `Request.Resource`. -/
def RestRequest.Resource (r : RestRequest) (res : String) : RestRequest :=
  { r with resource := some res }

/-- `Request.Name`. -/
def RestRequest.Name (r : RestRequest) (n : String) : RestRequest :=
  { r with name := some n }

/-- `Request.SubResource` (variadic in Go; appends). -/
def RestRequest.SubResource (r : RestRequest) (subs : List String) :
    RestRequest :=
  { r with subresources := r.subresources ++ subs }

/-- `Request.Body`. -/
def RestRequest.Body (r : RestRequest) (b : ReqBody) : RestRequest :=
  { r with body := some b }

/-- `Request.Timeout` (Go computes `0` when `TimeoutSeconds` is nil). -/
def RestRequest.Timeout (r : RestRequest) (t : Nat) : RestRequest :=
  { r with timeoutSecs := t }

/-- `Request.VersionedParams`. -/
def RestRequest.VersionedParams (r : RestRequest) (p : ReqParams) :
    RestRequest :=
  { r with params := some p }

/-- What executing a request yields: a single object, a list, a watch
connection handle, or nothing (deletes). -/
inductive RestResponse where
  | obj (o : VirtualMachineRestore)
  | objList (l : VirtualMachineRestoreList)
  | watchConn (id : Nat)
  | empty
deriving DecidableEq, Repr

/-- The `rest.Interface` the client is built over: verb methods start a
fresh request; `exec` abstracts `Do()`/`Watch()` against the server. -/
structure RestClient where
  exec : RestRequest → Except String RestResponse

/-- `client.Get()`. -/
def RestClient.Get (_ : RestClient) : RestRequest := { verb := "GET" }

/-- `client.Post()`. -/
def RestClient.Post (_ : RestClient) : RestRequest := { verb := "POST" }

/-- `client.Put()`. -/
def RestClient.Put (_ : RestClient) : RestRequest := { verb := "PUT" }

/-- `client.Delete()`. -/
def RestClient.Delete (_ : RestClient) : RestRequest := { verb := "DELETE" }

/-- `client.Patch(pt)`. -/
def RestClient.Patch (_ : RestClient) (pt : String) : RestRequest :=
  { verb := "PATCH", patchType := some pt }

/-- Patch payload bytes (`data []byte`). -/
abbrev PatchData := List Nat

/-- The variadic `subresources ...string` argument. -/
abbrev Subresources := List String

/-- The timeout Go computes from `ListOptions`: `TimeoutSeconds` when set,
zero otherwise. -/
def listTimeout (opts : ListOptions) : Nat :=
  match opts.timeoutSeconds with
  | some t => t
  | none => 0

/-- `virtualMachineRestores` implements the typed client: a REST client and
the namespace the client was constructed with. -/
structure virtualMachineRestores where
  client : RestClient
  ns : String

/-- `newVirtualMachineRestores`. -/
def newVirtualMachineRestores (c : RestClient) (namespaceArg : String) :
    virtualMachineRestores :=
  { client := c, ns := namespaceArg }

/-- The request issued by `Get`. -/
def virtualMachineRestores.getRequest (c : virtualMachineRestores)
    (name : String) (options : GetOptions) : RestRequest :=
  ((((c.client.Get).Namespace c.ns).Resource "virtualmachinerestores").Name
    name).VersionedParams (.getOpts options)

/-- `Get`: issue the request and decode the object, or return the error. -/
def virtualMachineRestores.Get (c : virtualMachineRestores) (name : String)
    (options : GetOptions) : Except String VirtualMachineRestore :=
  match c.client.exec (c.getRequest name options) with
  | .ok (.obj o) => .ok o
  | .ok _ => .error "unexpected response body"
  | .error e => .error e

/-- The request issued by `List`. -/
def virtualMachineRestores.listRequest (c : virtualMachineRestores)
    (opts : ListOptions) : RestRequest :=
  ((((c.client.Get).Namespace c.ns).Resource
    "virtualmachinerestores").VersionedParams (.listOpts opts)).Timeout
    (listTimeout opts)

/-- `List`. -/
def virtualMachineRestores.List (c : virtualMachineRestores)
    (opts : ListOptions) : Except String VirtualMachineRestoreList :=
  match c.client.exec (c.listRequest opts) with
  | .ok (.objList l) => .ok l
  | .ok _ => .error "unexpected response body"
  | .error e => .error e

/-- The request issued by `Watch`: the Go code sets `opts.Watch = true`
before building the request, so the issued request always carries
watch-enabled options. -/
def virtualMachineRestores.watchRequest (c : virtualMachineRestores)
    (opts : ListOptions) : RestRequest :=
  let timeout := listTimeout opts
  let opts' := { opts with watch := true }
  ((((c.client.Get).Namespace c.ns).Resource
    "virtualmachinerestores").VersionedParams (.listOpts opts')).Timeout
    timeout

/-- `Watch`: returns the watch connection, or an error. -/
def virtualMachineRestores.Watch (c : virtualMachineRestores)
    (opts : ListOptions) : Except String Nat :=
  match c.client.exec (c.watchRequest opts) with
  | .ok (.watchConn w) => .ok w
  | .ok _ => .error "unexpected response body"
  | .error e => .error e

/-- The request issued by `Create`. -/
def virtualMachineRestores.createRequest (c : virtualMachineRestores)
    (vmr : VirtualMachineRestore) : RestRequest :=
  (((c.client.Post).Namespace c.ns).Resource
    "virtualmachinerestores").Body (.restoreObj vmr)

/-- `Create`. -/
def virtualMachineRestores.Create (c : virtualMachineRestores)
    (vmr : VirtualMachineRestore) : Except String VirtualMachineRestore :=
  match c.client.exec (c.createRequest vmr) with
  | .ok (.obj o) => .ok o
  | .ok _ => .error "unexpected response body"
  | .error e => .error e

/-- The request issued by `Update` (addressed by the object's name). -/
def virtualMachineRestores.updateRequest (c : virtualMachineRestores)
    (vmr : VirtualMachineRestore) : RestRequest :=
  ((((c.client.Put).Namespace c.ns).Resource
    "virtualmachinerestores").Name vmr.name).Body (.restoreObj vmr)

/-- `Update`. -/
def virtualMachineRestores.Update (c : virtualMachineRestores)
    (vmr : VirtualMachineRestore) : Except String VirtualMachineRestore :=
  match c.client.exec (c.updateRequest vmr) with
  | .ok (.obj o) => .ok o
  | .ok _ => .error "unexpected response body"
  | .error e => .error e

/-- The request issued by `UpdateStatus` (the `status` subresource). -/
def virtualMachineRestores.updateStatusRequest (c : virtualMachineRestores)
    (vmr : VirtualMachineRestore) : RestRequest :=
  (((((c.client.Put).Namespace c.ns).Resource
    "virtualmachinerestores").Name vmr.name).SubResource
    ["status"]).Body (.restoreObj vmr)

/-- `UpdateStatus`. -/
def virtualMachineRestores.UpdateStatus (c : virtualMachineRestores)
    (vmr : VirtualMachineRestore) : Except String VirtualMachineRestore :=
  match c.client.exec (c.updateStatusRequest vmr) with
  | .ok (.obj o) => .ok o
  | .ok _ => .error "unexpected response body"
  | .error e => .error e

/-- The request issued by `Delete`. -/
def virtualMachineRestores.deleteRequest (c : virtualMachineRestores)
    (name : String) (options : Option DeleteOptions) : RestRequest :=
  ((((c.client.Delete).Namespace c.ns).Resource
    "virtualmachinerestores").Name name).Body (.deleteOpts options)

/-- `Delete`: returns unit or the error. -/
def virtualMachineRestores.Delete (c : virtualMachineRestores)
    (name : String) (options : Option DeleteOptions) :
    Except String Unit :=
  match c.client.exec (c.deleteRequest name options) with
  | .ok _ => .ok ()
  | .error e => .error e

/-- The request issued by `DeleteCollection`. -/
def virtualMachineRestores.deleteCollectionRequest
    (c : virtualMachineRestores) (options : Option DeleteOptions)
    (listOptions : ListOptions) : RestRequest :=
  (((((c.client.Delete).Namespace c.ns).Resource
    "virtualmachinerestores").VersionedParams
    (.listOpts listOptions)).Timeout (listTimeout listOptions)).Body
    (.deleteOpts options)

/-- `DeleteCollection`. -/
def virtualMachineRestores.DeleteCollection (c : virtualMachineRestores)
    (options : Option DeleteOptions) (listOptions : ListOptions) :
    Except String Unit :=
  match c.client.exec (c.deleteCollectionRequest options listOptions) with
  | .ok _ => .ok ()
  | .error e => .error e

/-- The request issued by `Patch` (subresources, then name, then body). -/
def virtualMachineRestores.patchRequest (c : virtualMachineRestores)
    (name : String) (pt : String) (data : PatchData)
    (subresources : Subresources) : RestRequest :=
  (((((c.client.Patch pt).Namespace c.ns).Resource
    "virtualmachinerestores").SubResource subresources).Name name).Body
    (.patchData data)

/-- `Patch`. -/
def virtualMachineRestores.Patch (c : virtualMachineRestores)
    (name : String) (pt : String) (data : PatchData)
    (subresources : Subresources) : Except String VirtualMachineRestore :=
  match c.client.exec (c.patchRequest name pt data subresources) with
  | .ok (.obj o) => .ok o
  | .ok _ => .error "unexpected response body"
  | .error e => .error e

end ClientGen

namespace Network

/-! ### Helper lemmas -/

theorem filterPodNetworkRoutes_eq_filter (routes : List Route) (nic : VIF) :
    filterPodNetworkRoutes routes nic = routes.filter (keepRoute nic) := by
  induction routes with
  | nil => rfl
  | cons r rest ih =>
    by_cases hempty : r.dst = none ∧ r.gw = none ∧ r.src = none
    · have hk : keepRoute nic r = false := by simp [keepRoute, hempty]
      simp [filterPodNetworkRoutes, hempty, hk, ih, List.filter_cons]
    · cases hs : r.src with
      | none =>
        have h2 : ¬ (r.dst = none ∧ r.gw = none) :=
          fun hw => hempty ⟨hw.1, hw.2, hs⟩
        have hk : keepRoute nic r = true := by simp [keepRoute, hs, h2]
        simp [filterPodNetworkRoutes, hs, h2, hk, ih, List.filter_cons]
      | some s =>
        by_cases hsv : s = nic.ip.ip
        · have hk : keepRoute nic r = false := by simp [keepRoute, hs, hsv]
          simp [filterPodNetworkRoutes, hempty, hs, hsv, hk, ih,
            List.filter_cons]
        · have hk : keepRoute nic r = true := by simp [keepRoute, hs, hsv]
          simp [filterPodNetworkRoutes, hempty, hs, hsv, hk, ih,
            List.filter_cons]

theorem modifyIdx_length {α : Type} (l : List α) (i : Nat) (f : α → α) :
    (modifyIdx l i f).length = l.length := by
  induction l generalizing i with
  | nil => rfl
  | cons x xs ih =>
    cases i with
    | zero => rfl
    | succ n => simp [modifyIdx, ih]

theorem modifyIdx_idem {α : Type} (l : List α) (i : Nat) (f : α → α)
    (hf : ∀ x, f (f x) = f x) :
    modifyIdx (modifyIdx l i f) i f = modifyIdx l i f := by
  induction l generalizing i with
  | nil => rfl
  | cons x xs ih =>
    cases i with
    | zero => simp [modifyIdx, hf]
    | succ n => simp [modifyIdx, ih]

theorem countP_modifyIdx {α : Type} (p : α → Bool) (l : List α) (i : Nat)
    (f : α → α) (hf : ∀ x, p (f x) = p x) :
    (modifyIdx l i f).countP p = l.countP p := by
  induction l generalizing i with
  | nil => rfl
  | cons x xs ih =>
    cases i with
    | zero => simp [modifyIdx, List.countP_cons, hf]
    | succ n => simp [modifyIdx, List.countP_cons, ih]

theorem isPodInterface_setPodMac (m : MAC) (d : Interface) :
    isPodInterface (setPodMac m d) = isPodInterface d := rfl

theorem setPodMac_setPodMac (m : MAC) (d : Interface) :
    setPodMac m (setPodMac m d) = setPodMac m d := rfl

theorem findPodInterface_modifyIdx (ifs : List Interface) (i : Nat)
    (f : Interface → Interface)
    (hf : ∀ d, isPodInterface (f d) = isPodInterface d) :
    findPodInterface (modifyIdx ifs i f) = findPodInterface ifs := by
  induction ifs generalizing i with
  | nil => rfl
  | cons d rest ih =>
    cases i with
    | zero => simp [modifyIdx, findPodInterface, hf]
    | succ n => simp [modifyIdx, findPodInterface, ih]

theorem findPodInterface_error_iff (ifs : List Interface) :
    (∃ e, findPodInterface ifs = .error e) ↔
      ∀ d ∈ ifs, isPodInterface d = false := by
  induction ifs with
  | nil => simp [findPodInterface]
  | cons d rest ih =>
    by_cases h : isPodInterface d = true
    · simp [findPodInterface, h]
    · have hd : isPodInterface d = false := by
        cases hv : isPodInterface d
        · rfl
        · exact absurd hv h
      have hunfold : findPodInterface (d :: rest) =
          (findPodInterface rest).map (· + 1) := by
        simp [findPodInterface, hd]
      constructor
      · rintro ⟨e, he⟩
        rw [hunfold] at he
        intro d' hd'
        rcases List.mem_cons.mp hd' with rfl | hmem
        · exact hd
        · cases hr : findPodInterface rest with
          | error e' => exact ih.mp ⟨e', hr⟩ d' hmem
          | ok i => rw [hr] at he; simp [Except.map] at he
      · intro hall
        obtain ⟨e, he⟩ :=
          ih.mpr (fun d' hd' => hall d' (List.mem_cons_of_mem _ hd'))
        exact ⟨e, by rw [hunfold, he]; rfl⟩

theorem findPodInterface_ok (ifs : List Interface) (i : Nat)
    (h : findPodInterface ifs = .ok i) :
    ∃ d, ifs[i]? = some d ∧ isPodInterface d = true ∧
      ∀ j, j < i → ∃ d', ifs[j]? = some d' ∧ isPodInterface d' = false := by
  induction ifs generalizing i with
  | nil => simp [findPodInterface] at h
  | cons d rest ih =>
    by_cases hd : isPodInterface d
    · simp [findPodInterface, hd] at h
      subst h
      exact ⟨d, by simp, hd, fun j hj => absurd hj (Nat.not_lt_zero j)⟩
    · simp only [findPodInterface, hd, if_neg, Bool.not_eq_true] at h
      cases hr : findPodInterface rest with
      | error e => rw [hr] at h; simp [Except.map] at h
      | ok i' =>
        rw [hr] at h
        simp [Except.map] at h
        subst h
        obtain ⟨d', hget, hpod, hbefore⟩ := ih i' hr
        refine ⟨d', by simpa using hget, hpod, ?_⟩
        intro j hj
        cases j with
        | zero =>
          refine ⟨d, by simp, ?_⟩
          cases hv : isPodInterface d
          · rfl
          · exact absurd hv hd
        | succ j' =>
          obtain ⟨d'', hget'', hpod''⟩ := hbefore j' (Nat.lt_of_succ_lt_succ hj)
          exact ⟨d'', by simpa using hget'', hpod''⟩

theorem decorateConfig_shape (v : VIF) (d d' : Domain)
    (h : decorateConfig v d = .ok d') :
    ∃ i, findPodInterface d.interfaces = .ok i ∧
      d' = ⟨modifyIdx d.interfaces i (setPodMac v.mac)⟩ := by
  unfold decorateConfig at h
  cases hf : findPodInterface d.interfaces with
  | error e => rw [hf] at h; exact absurd h (by simp)
  | ok i =>
    rw [hf] at h
    exact ⟨i, rfl, by injection h with h'; exact h'.symm⟩

theorem decorateConfig_idem (v : VIF) (d d' : Domain)
    (h : decorateConfig v d = .ok d') :
    decorateConfig v d' = .ok d' := by
  obtain ⟨i, hf, hd'⟩ := decorateConfig_shape v d d' h
  subst hd'
  simp [decorateConfig,
    findPodInterface_modifyIdx _ _ _ (isPodInterface_setPodMac v.mac), hf,
    modifyIdx_idem _ _ _ (setPodMac_setPodMac v.mac)]

theorem decorateConfig_countPod (v : VIF) (d d' : Domain)
    (h : decorateConfig v d = .ok d') :
    countPod d'.interfaces = countPod d.interfaces ∧
      d'.interfaces.length = d.interfaces.length := by
  obtain ⟨i, _, hd'⟩ := decorateConfig_shape v d d' h
  subst hd'
  exact ⟨countP_modifyIdx _ _ _ _ (isPodInterface_setPodMac v.mac),
    modifyIdx_length _ _ _⟩

theorem lookupCache_insert (c : Cache) (k : String) (v : VIF × List Route) :
    lookupCache ((k, v) :: c) k = some v := by
  simp [lookupCache]

/-- Inversion of a successful setup pass: the final cache holds a VIF for the
pod interface, and the final domain is the decoration of the initial one by
that VIF. -/
theorem setup_ok_inv (vm : VirtualMachineInstance) (port : Port)
    (cache : Cache) (d₀ d₁ : Domain) (c₁ : Cache) (tr : List PortCall)
    (h : SetupPodNetwork vm port cache d₀ = (.ok d₁ c₁, tr)) :
    ∃ v rs, lookupCache c₁ podInterface = some (v, rs) ∧
      decorateConfig v d₀ = .ok d₁ := by
  simp only [SetupPodNetwork] at h
  repeat' split at h
  all_goals try exact SetupResult.noConfusion (congrArg Prod.fst h)
  all_goals
    simp only [Prod.mk.injEq, SetupResult.ok.injEq] at h
  all_goals obtain ⟨⟨hd', hc'⟩, htr⟩ := h
  all_goals subst hd'
  all_goals subst hc'
  all_goals
    exact ⟨_, _, by first | assumption | exact lookupCache_insert _ _ _,
      by assumption⟩

/-- A successful pass only rewrites the located device in place: the number
of pod-bridge devices and the device-list length are unchanged. -/
theorem setup_ok_preserves_countPod (vm : VirtualMachineInstance)
    (port : Port) (cache : Cache) (d₀ d₁ : Domain) (c₁ : Cache)
    (tr : List PortCall)
    (h : SetupPodNetwork vm port cache d₀ = (.ok d₁ c₁, tr)) :
    countPod d₁.interfaces = countPod d₀.interfaces ∧
      d₁.interfaces.length = d₀.interfaces.length := by
  obtain ⟨v, rs, _, hd⟩ := setup_ok_inv vm port cache d₀ d₁ c₁ tr h
  exact decorateConfig_countPod v d₀ d₁ hd

theorem runPasses_preserves (passes : List (VirtualMachineInstance × Port)) :
    ∀ cache d d' c', runPasses passes cache d = some (d', c') →
      countPod d'.interfaces = countPod d.interfaces ∧
        d'.interfaces.length = d.interfaces.length := by
  induction passes with
  | nil =>
    intro cache d d' c' h
    simp only [runPasses, Option.some.injEq, Prod.mk.injEq] at h
    obtain ⟨h1, _⟩ := h
    subst h1
    exact ⟨rfl, rfl⟩
  | cons p rest ih =>
    obtain ⟨pvm, pport⟩ := p
    intro cache d d' c' h
    simp only [runPasses] at h
    split at h
    · next d'' c'' _ heq =>
      have h1 := setup_ok_preserves_countPod _ _ _ _ _ _ _ heq
      have h2 := ih _ _ _ _ h
      exact ⟨h2.1.trans h1.1, h2.2.trans h1.2⟩
    · exact absurd h (by simp)

/-- Non-panic outcomes of a cache-miss pass arise only in two trace shapes:
the bare pod-link lookup (link absent), or the complete successful migration
sequence.  Any Port-call failure part-way through the sequence therefore
forces the panic outcome. -/
theorem setup_nonpanic_trace (vm : VirtualMachineInstance) (port : Port)
    (cache : Cache) (domain : Domain) (res : SetupResult)
    (tr : List PortCall)
    (hmiss : lookupCache cache podInterface = none)
    (h : SetupPodNetwork vm port cache domain = (res, tr))
    (hnp : ∀ e, res ≠ SetupResult.panic e) :
    tr = [PortCall.linkByName podInterface] ∨
    ∃ link addr mac gw br ba,
      tr = [PortCall.linkByName podInterface,
        .addrList link FAMILY_V4, .routeList link FAMILY_V4,
        .getMacDetails podInterface, .addrDel link addr,
        .linkSetDown link, .setRandomMac podInterface, .linkSetUp link,
        .linkAdd bridgeSpec, .linkByName DefaultBridgeName, .linkSetUp br,
        .parseAddr bridgeFakeIP, .addrAdd br ba,
        .startDHCP
          { name := podInterface, ip := addr, mac := mac, gateway := gw }
          ba] := by
  simp only [SetupPodNetwork, hmiss] at h
  repeat' split at h
  all_goals try exact absurd (congrArg Prod.fst h).symm (hnp _)
  all_goals try exact Or.inl (congrArg Prod.snd h).symm
  all_goals exact Or.inr ⟨_, _, _, _, _, _, (congrArg Prod.snd h).symm⟩

/-- When address removal fails after a successful discovery phase, the pass
aborts with exactly the failing call's error, having issued no bridge
creation, no address addition and no DHCP start. -/
theorem setup_addrDel_error (vm : VirtualMachineInstance) (port : Port)
    (cache : Cache) (domain : Domain) (link : Link) (addr : Addr)
    (arest : List Addr) (route : Route) (rrest : List Route) (mac : MAC)
    (e : String)
    (hmiss : lookupCache cache podInterface = none)
    (h1 : port.linkByName podInterface = some link)
    (h2 : port.addrList link FAMILY_V4 = .ok (addr :: arest))
    (h3 : port.routeList link FAMILY_V4 = .ok (route :: rrest))
    (h4 : port.getMacDetails podInterface = .ok mac)
    (h5 : port.addrDel link addr = .error e) :
    SetupPodNetwork vm port cache domain =
      (.panic e, [PortCall.linkByName podInterface,
        .addrList link FAMILY_V4, .routeList link FAMILY_V4,
        .getMacDetails podInterface, .addrDel link addr]) := by
  simp only [SetupPodNetwork, hmiss, h1, h2, h3, h4, h5]

/-! ### Claim theorems -/

/-- C1: for every VM spec and domain whose pod interface was already
successfully migrated — i.e. after any successful pass, which leaves a cache
hit for the interface name — invoking `SetupPodNetwork` again (with any VM
spec and any Port) issues zero Network Operations Port calls (empty trace)
and returns the very same domain device description, hence byte-identical
serialization, and the same cache. -/
theorem setup_idempotent (vm vm' : VirtualMachineInstance)
    (port port' : Port) (cache : Cache) (d₀ d₁ : Domain) (c₁ : Cache)
    (tr : List PortCall)
    (h : SetupPodNetwork vm port cache d₀ = (.ok d₁ c₁, tr)) :
    SetupPodNetwork vm' port' c₁ d₁ = (.ok d₁ c₁, []) := by
  obtain ⟨v, rs, hc, hd⟩ := setup_ok_inv vm port cache d₀ d₁ c₁ tr h
  have hd' := decorateConfig_idem v d₀ d₁ hd
  simp only [SetupPodNetwork, hc, hd']

/-- C1 witness: the second pass on the test scenario issues no Port calls
and reproduces the configured domain exactly. -/
theorem setup_idempotent_witness :
    SetupPodNetwork testVM mockPort testCacheAfter decoratedTestDomain =
      (.ok decoratedTestDomain testCacheAfter, []) :=
  setup_idempotent testVM testVM mockPort mockPort [] testDomain
    decoratedTestDomain testCacheAfter fullMockTrace (by decide)

/-- C2: on a cache miss, a non-panic outcome is only possible when the trace
is either the bare link lookup (pod link absent, before any mutation) or the
complete successful migration sequence — so a Port-call failure anywhere in
the mutation sequence terminates unrecoverably (panic-equivalent), and only
the `ok` outcome carries a modified domain description.  In particular, when
address removal fails the pass panics with that error, having created no
bridge, started no DHCP responder, and cached nothing. -/
theorem setup_fatal_propagation (vm : VirtualMachineInstance) (port : Port)
    (cache : Cache) (domain : Domain)
    (hmiss : lookupCache cache podInterface = none) :
    (∀ res tr, SetupPodNetwork vm port cache domain = (res, tr) →
      (∀ e, res ≠ SetupResult.panic e) →
      tr = [PortCall.linkByName podInterface] ∨
      ∃ link addr mac gw br ba,
        tr = [PortCall.linkByName podInterface,
          .addrList link FAMILY_V4, .routeList link FAMILY_V4,
          .getMacDetails podInterface, .addrDel link addr,
          .linkSetDown link, .setRandomMac podInterface, .linkSetUp link,
          .linkAdd bridgeSpec, .linkByName DefaultBridgeName,
          .linkSetUp br, .parseAddr bridgeFakeIP, .addrAdd br ba,
          .startDHCP
            { name := podInterface, ip := addr, mac := mac, gateway := gw }
            ba]) ∧
    (∀ link addr arest route rrest mac e,
      port.linkByName podInterface = some link →
      port.addrList link FAMILY_V4 = .ok (addr :: arest) →
      port.routeList link FAMILY_V4 = .ok (route :: rrest) →
      port.getMacDetails podInterface = .ok mac →
      port.addrDel link addr = .error e →
      SetupPodNetwork vm port cache domain =
        (.panic e, [PortCall.linkByName podInterface,
          .addrList link FAMILY_V4, .routeList link FAMILY_V4,
          .getMacDetails podInterface, .addrDel link addr]) ∧
      (∀ l, PortCall.linkAdd l ∉ ([PortCall.linkByName podInterface,
          .addrList link FAMILY_V4, .routeList link FAMILY_V4,
          .getMacDetails podInterface, .addrDel link addr] :
            List PortCall)) ∧
      (∀ v a, PortCall.startDHCP v a ∉ ([PortCall.linkByName podInterface,
          .addrList link FAMILY_V4, .routeList link FAMILY_V4,
          .getMacDetails podInterface, .addrDel link addr] :
            List PortCall))) := by
  constructor
  · intro res tr h hnp
    exact setup_nonpanic_trace vm port cache domain res tr hmiss h hnp
  · intro link addr arest route rrest mac e h1 h2 h3 h4 h5
    refine ⟨setup_addrDel_error vm port cache domain link addr arest route
      rrest mac e hmiss h1 h2 h3 h4 h5, ?_, ?_⟩
    · intro l
      simp
    · intro v a
      simp

/-- C2 witness: the fatal scenario — `AddrDel` fails with `device is busy` —
panics with that error after exactly the five discovery/removal calls. -/
theorem setup_fatal_propagation_witness :
    SetupPodNetwork testVM mockPortAddrDelFails [] testDomain =
      (.panic "device is busy",
       [PortCall.linkByName podInterface,
        .addrList dummyLink FAMILY_V4, .routeList dummyLink FAMILY_V4,
        .getMacDetails podInterface, .addrDel dummyLink fakeAddr]) :=
  ((setup_fatal_propagation testVM mockPortAddrDelFails [] testDomain
      rfl).2 dummyLink fakeAddr [] routeAddr [] fakeMac "device is busy"
    rfl rfl rfl rfl rfl).1

/-- C3: on a cache miss with every Port operation succeeding, the pass
drives the Port through exactly the ordered sequence: find the pod link,
list its IPv4 addresses, list its IPv4 routes, read its MAC, delete the
original address, set the link down, randomize its MAC, set it up, create
the bridge, look up and bring up the bridge, parse the well-known bridge
address, add it to the bridge, and start the DHCP responder with a VIF
carrying the original pod address, MAC and gateway plus the bridge's own
address. -/
theorem setup_call_sequence (vm : VirtualMachineInstance) (port : Port)
    (cache : Cache) (domain : Domain) (link : Link) (addr : Addr)
    (arest : List Addr) (route : Route) (rrest : List Route) (mac m2 : MAC)
    (br : Link) (ba : Addr)
    (hmiss : lookupCache cache podInterface = none)
    (h1 : port.linkByName podInterface = some link)
    (h2 : port.addrList link FAMILY_V4 = .ok (addr :: arest))
    (h3 : port.routeList link FAMILY_V4 = .ok (route :: rrest))
    (h4 : port.getMacDetails podInterface = .ok mac)
    (h5 : port.addrDel link addr = .ok ())
    (h6 : port.linkSetDown link = .ok ())
    (h7 : port.setRandomMac podInterface = .ok m2)
    (h8 : port.linkSetUp link = .ok ())
    (h9 : port.linkAdd bridgeSpec = .ok ())
    (h10 : port.linkByName DefaultBridgeName = some br)
    (h11 : port.linkSetUp br = .ok ())
    (h12 : port.parseAddr bridgeFakeIP = .ok ba)
    (h13 : port.addrAdd br ba = .ok ()) :
    (SetupPodNetwork vm port cache domain).2 =
      [PortCall.linkByName podInterface, .addrList link FAMILY_V4,
       .routeList link FAMILY_V4, .getMacDetails podInterface,
       .addrDel link addr, .linkSetDown link, .setRandomMac podInterface,
       .linkSetUp link, .linkAdd bridgeSpec, .linkByName DefaultBridgeName,
       .linkSetUp br, .parseAddr bridgeFakeIP, .addrAdd br ba,
       .startDHCP
         { name := podInterface, ip := addr, mac := mac,
           gateway := route.gw } ba] := by
  simp only [SetupPodNetwork, hmiss, h1, h2, h3, h4, h5, h6, h7, h8, h9,
    h10, h11, h12, h13]
  cases decorateConfig
      { name := podInterface, ip := addr, mac := mac, gateway := route.gw }
      domain <;> rfl

/-- C3 witness: on the mock Port the trace is exactly the full migration
sequence. -/
theorem setup_call_sequence_witness :
    (SetupPodNetwork testVM mockPort [] testDomain).2 = fullMockTrace :=
  setup_call_sequence testVM mockPort [] testDomain dummyLink fakeAddr []
    routeAddr [] fakeMac updateFakeMac bridgeSpec bridgeAddr rfl rfl rfl
    rfl rfl rfl rfl rfl rfl rfl rfl rfl rfl rfl

/-- C4: the route filter equals filtering by the keep-predicate (drop
degenerate routes and the route whose source is the VIF's address), it
preserves the original order (sublist), and on the five-route example it
returns exactly the default, gateway and static routes in that order. -/
theorem filterPodNetworkRoutes_spec (routes : List Route) (nic : VIF) :
    filterPodNetworkRoutes routes nic = routes.filter (keepRoute nic) ∧
    List.Sublist (filterPodNetworkRoutes routes nic) routes ∧
    filterPodNetworkRoutes
        [defRoute, gwRoute, nicRoute, emptyRoute, staticRoute] testNic =
      [defRoute, gwRoute, staticRoute] := by
  refine ⟨filterPodNetworkRoutes_eq_filter routes nic, ?_, by decide⟩
  rw [filterPodNetworkRoutes_eq_filter]
  exact List.filter_sublist _

/-- C5: the end-to-end scenario — pod interface with address `10.35.0.6/24`,
gateway `10.35.0.1`, MAC `12:34:56:78:9A:BC` — leaves the domain with
exactly one bridge-type device, model `virtio`, the well-known bridge name,
and the original MAC serialized in lowercase; the cache holds the VIF. -/
theorem setup_end_to_end :
    SetupPodNetwork testVM mockPort [] testDomain =
      (.ok decoratedTestDomain testCacheAfter, fullMockTrace) ∧
    countPod decoratedTestDomain.interfaces = 1 ∧
    macToString fakeMac = "12:34:56:78:9a:bc" ∧
    serializeInterfaces decoratedTestDomain.interfaces = interfaceXml := by
  refine ⟨by decide, by decide, by decide, by decide⟩

/-- C6: the locator errs exactly when no device is a bridge on the
well-known pod-bridge name, and an `ok` index always points at a matching
device (the first one), with every earlier device non-matching — so
non-matching devices are skipped, not an error. -/
theorem findPodInterface_spec (ifs : List Interface) :
    ((∃ e, findPodInterface ifs = .error e) ↔
      ∀ d ∈ ifs, isPodInterface d = false) ∧
    (∀ i, findPodInterface ifs = .ok i →
      ∃ d, ifs[i]? = some d ∧ isPodInterface d = true ∧
        ∀ j, j < i → ∃ d', ifs[j]? = some d' ∧ isPodInterface d' = false) :=
  ⟨findPodInterface_error_iff ifs, fun i h => findPodInterface_ok ifs i h⟩

/-- C6 witness: on the three-device test list the locator returns index 2,
the position of the single matching device. -/
theorem findPodInterface_spec_witness :
    ∃ d, testInterfaces3[2]? = some d ∧ isPodInterface d = true ∧
      ∀ j, j < 2 → ∃ d', testInterfaces3[j]? = some d' ∧
        isPodInterface d' = false :=
  (findPodInterface_spec testInterfaces3).2 2 (by decide)

/-- C7: not-found conditions are ordinary errors, not fatal aborts: a
missing pod link makes the pass return the recoverable `softErr` outcome
(after the single lookup call, before any mutation), and the locator on a
list with no matching device returns an `Except.error` value. -/
theorem notFound_soft_errors (vm : VirtualMachineInstance) (port : Port)
    (cache : Cache) (domain : Domain) (ifs : List Interface)
    (hmiss : lookupCache cache podInterface = none)
    (hlink : port.linkByName podInterface = none)
    (hno : ∀ d ∈ ifs, isPodInterface d = false) :
    SetupPodNetwork vm port cache domain =
      (.softErr "pod link not found", [PortCall.linkByName podInterface]) ∧
    ∃ e, findPodInterface ifs = .error e := by
  constructor
  · simp only [SetupPodNetwork, hmiss, hlink]
  · exact (findPodInterface_error_iff ifs).mpr hno

/-- C7 witness: with no links at all, the pass soft-fails after one lookup;
the locator on the empty list errs. -/
theorem notFound_soft_errors_witness :
    SetupPodNetwork testVM noLinkPort [] testDomain =
      (.softErr "pod link not found", [PortCall.linkByName podInterface]) ∧
    ∃ e, findPodInterface [] = .error e :=
  notFound_soft_errors testVM noLinkPort [] testDomain [] rfl rfl
    (by simp)

/-- C8: after any number of successful passes starting from a domain with
exactly one pod-bridge device, the domain still has exactly one such device
and the device list has not grown — passes overwrite the entry in place and
never append a second one. -/
theorem single_bridge_invariant
    (passes : List (VirtualMachineInstance × Port)) (cache : Cache)
    (d d' : Domain) (c' : Cache)
    (h : runPasses passes cache d = some (d', c'))
    (hone : countPod d.interfaces = 1) :
    countPod d'.interfaces = 1 ∧
      d'.interfaces.length = d.interfaces.length := by
  obtain ⟨hc, hl⟩ := runPasses_preserves passes cache d d' c' h
  exact ⟨hc.trans hone, hl⟩

/-- C8 witness: two consecutive passes (miss then hit) on the test domain
keep exactly one pod-bridge device and an unchanged device-list length. -/
theorem single_bridge_invariant_witness :
    countPod decoratedTestDomain.interfaces = 1 ∧
      decoratedTestDomain.interfaces.length =
        testDomain.interfaces.length :=
  single_bridge_invariant [(testVM, mockPort), (testVM, mockPort)] []
    testDomain decoratedTestDomain testCacheAfter (by decide) (by decide)

end Network

namespace ClientGen

/-- C9: every operation of the `VirtualMachineRestore` client — `Create`,
`Update`, `UpdateStatus`, `Delete`, `DeleteCollection`, `Get`, `List`,
`Watch`, `Patch` — issues its request against the resource
`virtualmachinerestores` in the namespace the client was constructed with
(each operation's return type is the resource, list or watch handle, or an
error). -/
theorem virtualMachineRestores_namespaced (c : virtualMachineRestores)
    (rc : RestClient) (nsArg name pt : String) (gopts : GetOptions)
    (lopts dlopts : ListOptions) (dopts : Option DeleteOptions)
    (vmr : VirtualMachineRestore) (data : PatchData)
    (subs : Subresources) :
    (newVirtualMachineRestores rc nsArg).ns = nsArg ∧
    ((c.getRequest name gopts).resource = some "virtualmachinerestores" ∧
      (c.getRequest name gopts).ns = some c.ns) ∧
    ((c.listRequest lopts).resource = some "virtualmachinerestores" ∧
      (c.listRequest lopts).ns = some c.ns) ∧
    ((c.watchRequest lopts).resource = some "virtualmachinerestores" ∧
      (c.watchRequest lopts).ns = some c.ns) ∧
    ((c.createRequest vmr).resource = some "virtualmachinerestores" ∧
      (c.createRequest vmr).ns = some c.ns) ∧
    ((c.updateRequest vmr).resource = some "virtualmachinerestores" ∧
      (c.updateRequest vmr).ns = some c.ns) ∧
    ((c.updateStatusRequest vmr).resource = some "virtualmachinerestores" ∧
      (c.updateStatusRequest vmr).ns = some c.ns) ∧
    ((c.deleteRequest name dopts).resource = some "virtualmachinerestores" ∧
      (c.deleteRequest name dopts).ns = some c.ns) ∧
    ((c.deleteCollectionRequest dopts dlopts).resource =
        some "virtualmachinerestores" ∧
      (c.deleteCollectionRequest dopts dlopts).ns = some c.ns) ∧
    ((c.patchRequest name pt data subs).resource =
        some "virtualmachinerestores" ∧
      (c.patchRequest name pt data subs).ns = some c.ns) :=
  ⟨rfl, ⟨rfl, rfl⟩, ⟨rfl, rfl⟩, ⟨rfl, rfl⟩, ⟨rfl, rfl⟩, ⟨rfl, rfl⟩,
    ⟨rfl, rfl⟩, ⟨rfl, rfl⟩, ⟨rfl, rfl⟩, ⟨rfl, rfl⟩⟩

/-- C10: `Watch` overwrites the `Watch` field of the caller's options with
`true` before issuing the request, whatever value the caller supplied, so
the issued request always carries watch-enabled parameters. -/
theorem watch_forces_watch_option (c : virtualMachineRestores)
    (opts : ListOptions) :
    (c.watchRequest opts).params =
      some (.listOpts { opts with watch := true }) ∧
    ({ opts with watch := true } : ListOptions).watch = true :=
  ⟨rfl, rfl⟩

end ClientGen

end KubeVirt
